import Mathlib

/-!
Verification development for the Razer_Controls remap daemon
(src/services/remap_daemon/daemon.py and the components it drives).

The daemon's own control flow (setup, the run-loop body, passthrough, cleanup,
switch_profile, main) is embedded from daemon.py.  The remap engine, the profile
loader and the app-watcher pattern matcher are not among the repository files
provided here; those definitions are modelled from the spec's words (and, for
pattern matching, the repository's own tests) and are marked as such.
-/

/-- Event type code for synchronization events (evdev EV_SYN). -/
def EV_SYN : Nat := 0

/-- Event type code for key events (evdev EV_KEY). -/
def EV_KEY : Nat := 1

/-- A raw input event: type, code and value (0 = key-up, 1 = key-down, 2 = auto-repeat). -/
structure InputEvent where
  etype : Nat
  code : Nat
  value : Nat
deriving Repr, DecidableEq

/-- Binding action types (profile_schema ActionType): NONE, KEY or MACRO. -/
inductive ActionType where
  | NONE
  | KEY
  | MACRO
deriving Repr, DecidableEq

/-- A key/button binding inside a layer (profile_schema Binding). -/
structure Binding where
  input_code : Nat
  action_type : ActionType
  output_keys : List Nat
  macro_id : Option String
deriving Repr, DecidableEq

/-- A binding layer; active while its hold modifier is held (the base layer has none). -/
structure Layer where
  id : String
  name : String
  bindings : List Binding
  hold_modifier_input_code : Option Nat
deriving Repr, DecidableEq

/-- A remap profile (profile_schema Profile), restricted to the fields the daemon uses. -/
structure Profile where
  id : String
  name : String
  description : String
  input_devices : List String
  layers : List Layer
  is_default : Bool
deriving Repr, DecidableEq

/-- Observable effects of the daemon and engine, listed in emission order. -/
inductive Effect where
  | keyDown (code : Nat)
  | keyUp (code : Nat)
  | startMacro (macro_id : String)
  | cancelMacroPlayback
  | writeEvent (ev : InputEvent)
  | syn
  | logError (msg : String)
  | stopWatcher
  | ungrabDevice (stable_id : String)
  | closeUinput
  | closeSelector
deriving Repr, DecidableEq

/-- Modelled from the spec: the remap engine's state (§3 EngineState, §4.2 Remap
Engine; services/remap_daemon/engine.py is not among the provided repository
files).  `asserted_keys` is the duplicate-free, insertion-ordered set of output
keys the engine has asserted on the virtual device; `macro_in_flight` is the
macro currently being played, if any. -/
structure RemapEngine where
  profile : Profile
  held_modifiers : List Nat
  asserted_keys : List Nat
  macro_in_flight : Option String
deriving Repr, DecidableEq

/-- A fresh engine bound to `profile`: empty state (spec §3 lifecycle). -/
def RemapEngine.init (profile : Profile) : RemapEngine :=
  { profile := profile, held_modifiers := [], asserted_keys := [],
    macro_in_flight := none }

/-- Insert a key into a duplicate-free key set (keeping first-insertion order). -/
def insertKey (k : Nat) (ks : List Nat) : List Nat :=
  if k ∈ ks then ks else ks ++ [k]

/-- Record `keys` (in declared order) into the asserted-key set. -/
def assertKeys (keys ks : List Nat) : List Nat :=
  keys.foldl (fun acc k => insertKey k acc) ks

/-- Remove `keys` from the asserted-key set. -/
def removeKeys (keys ks : List Nat) : List Nat :=
  ks.filter (fun k => decide (k ∉ keys))

/-- Modelled from the spec (§4.2): the active layer is the first layer whose hold
modifier is currently held; no modifier held ⇒ the base (first) layer. -/
def RemapEngine.activeLayer (e : RemapEngine) : Option Layer :=
  match e.profile.layers.find? (fun l =>
      match l.hold_modifier_input_code with
      | some m => decide (m ∈ e.held_modifiers)
      | none => false) with
  | some l => some l
  | none => e.profile.layers.head?

/-- Modelled from the spec (§4.2): whether `code` is some layer's hold modifier. -/
def RemapEngine.isHoldModifier (e : RemapEngine) (code : Nat) : Bool :=
  e.profile.layers.any (fun l => decide (l.hold_modifier_input_code = some code))

/-- Look up the binding for an input code in a layer. -/
def Layer.findBinding (l : Layer) (code : Nat) : Option Binding :=
  l.bindings.find? (fun b => decide (b.input_code = code))

/-- Modelled from the spec (§4.2 process_event): returns the updated engine, the
actions emitted on the virtual device, and whether the event was handled.
Non-key events are unhandled; a hold-modifier code updates `held_modifiers` and
is consumed; a KEY binding asserts `output_keys` in declared order on key-down
and releases them in reverse order on key-up; a MACRO binding dispatches the
macro on key-down and swallows the key-up. -/
def RemapEngine.process_event (e : RemapEngine) (ev : InputEvent) :
    RemapEngine × List Effect × Bool :=
  if ev.etype ≠ EV_KEY then (e, [], false)
  else if e.isHoldModifier ev.code then
    if ev.value == 1 then
      ({ e with held_modifiers := insertKey ev.code e.held_modifiers }, [], true)
    else if ev.value == 0 then
      ({ e with held_modifiers := e.held_modifiers.filter (fun m => decide (m ≠ ev.code)) },
       [], true)
    else (e, [], true)
  else
    match e.activeLayer with
    | none => (e, [], false)
    | some l =>
      match l.findBinding ev.code with
      | none => (e, [], false)
      | some b =>
        match b.action_type with
        | ActionType.NONE => (e, [], false)
        | ActionType.KEY =>
          if ev.value == 1 then
            ({ e with asserted_keys := assertKeys b.output_keys e.asserted_keys },
             b.output_keys.map Effect.keyDown, true)
          else if ev.value == 0 then
            ({ e with asserted_keys := removeKeys b.output_keys e.asserted_keys },
             b.output_keys.reverse.map Effect.keyUp, true)
          else (e, [], true)
        | ActionType.MACRO =>
          if ev.value == 1 then
            ({ e with macro_in_flight := some (b.macro_id.getD "") },
             [Effect.startMacro (b.macro_id.getD "")], true)
          else (e, [], true)

/-- Modelled from the spec (§4.2 release_all_keys): cancel in-flight macro
playback, synthesize a key-up for every key in `asserted_keys`, then clear all
engine state. -/
def RemapEngine.release_all_keys (e : RemapEngine) : RemapEngine × List Effect :=
  ({ profile := e.profile, held_modifiers := [], asserted_keys := [],
     macro_in_flight := none },
   (if e.macro_in_flight.isSome then [Effect.cancelMacroPlayback] else [])
     ++ e.asserted_keys.map Effect.keyUp)

/-- Modelled from the spec (§4.2 reload_profile): release_all_keys first, then
swap the bound profile; layer and modifier state are reset to base/empty. -/
def RemapEngine.reload_profile (e : RemapEngine) (p : Profile) :
    RemapEngine × List Effect :=
  let r := e.release_all_keys
  ({ r.1 with profile := p }, r.2)

/-- One engine-visible input: a physical event fed to process_event, or
(modelled from the spec §4.2/§4.3) a key the in-flight macro player asserts on
the virtual device, which the engine records in `asserted_keys`. -/
inductive EngineInput where
  | phys (ev : InputEvent)
  | macroKeyDown (k : Nat)
deriving Repr, DecidableEq

/-- Apply one input to the engine (outputs discarded; only state is tracked). -/
def RemapEngine.step (e : RemapEngine) (i : EngineInput) : RemapEngine :=
  match i with
  | EngineInput.phys ev => (e.process_event ev).1
  | EngineInput.macroKeyDown k => { e with asserted_keys := insertKey k e.asserted_keys }

/-- Run the engine over a sequence of inputs. -/
def RemapEngine.runInputs (e : RemapEngine) (is : List EngineInput) : RemapEngine :=
  is.foldl RemapEngine.step e

/-- An input that only presses keys down (never releases). -/
def EngineInput.isKeyDown : EngineInput → Bool
  | EngineInput.phys ev => ev.value == 1
  | EngineInput.macroKeyDown _ => true

/-- The outcome of attempting an exclusive grab on a device path. -/
inductive GrabResult where
  | ok
  | permissionDenied
  | failed
deriving Repr, DecidableEq

/-- The daemon's environment: the device registry's stable-id → event-path
resolution, the OS outcome of grabbing each path, whether uinput creation
succeeds, and the registry's Razer mice (used by the default profile). -/
structure Env where
  event_path : String → Option String
  grab : String → GrabResult
  uinput_ok : Bool
  razer_mice : List String

/-- Modelled from the spec (§6 external interfaces; crates/profile_schema/loader.py
is not among the provided repository files): the profile store with its active
profile pointer. -/
structure ProfileLoader where
  profiles : List Profile
  active_id : Option String

/-- Modelled from the spec (§6): load the profile the active pointer names. -/
def ProfileLoader.load_active_profile (pl : ProfileLoader) : Option Profile :=
  match pl.active_id with
  | none => none
  | some i => pl.profiles.find? (fun p => decide (p.id = i))

/-- Modelled from the spec (§6): save a profile, replacing any with the same id. -/
def ProfileLoader.save_profile (pl : ProfileLoader) (p : Profile) : ProfileLoader :=
  { pl with profiles := pl.profiles.filter (fun q => decide (q.id ≠ p.id)) ++ [p] }

/-- Modelled from the spec (§6): set the persisted active-profile pointer. -/
def ProfileLoader.set_active_profile (pl : ProfileLoader) (i : String) : ProfileLoader :=
  { pl with active_id := some i }

/-- The remap daemon's state (daemon.py RemapDaemon).  `uinput` and `app_watcher`
record whether the virtual device / a running watcher exist; `selector` is the
set of devices registered with the multiplexer. -/
structure RemapDaemon where
  loader : ProfileLoader
  engine : Option RemapEngine
  uinput : Bool
  grabbed_devices : List String
  selector : List String
  running : Bool
  enable_app_watcher : Bool
  app_watcher : Bool

/-- daemon.py RemapDaemon.__init__: a fresh daemon over a profile store. -/
def RemapDaemon.mk0 (loader : ProfileLoader) (enable_app_watcher : Bool) : RemapDaemon :=
  { loader := loader, engine := none, uinput := false, grabbed_devices := [],
    selector := [], running := false, enable_app_watcher := enable_app_watcher,
    app_watcher := false }

/-- daemon.py RemapDaemon._create_default_profile: a default profile with no
bindings over the registry's first mouse (if any). -/
def RemapDaemon.create_default_profile (env : Env) : Profile :=
  { id := "default", name := "Default Profile",
    description := "Default profile - no remapping",
    input_devices := env.razer_mice.take 1,
    layers := [{ id := "base", name := "Base Layer", bindings := [],
                 hold_modifier_input_code := none }],
    is_default := true }

/-- One iteration of the _grab_devices loop: resolve the stable id to a path
(skipping when the registry has none), attempt the grab, and on success record
the device and register it with the selector. -/
def RemapDaemon.grab_step (env : Env) (acc : RemapDaemon × Bool) (sid : String) :
    RemapDaemon × Bool :=
  match env.event_path sid with
  | none => acc
  | some path =>
    match env.grab path with
    | GrabResult.ok =>
      ({ acc.1 with grabbed_devices := acc.1.grabbed_devices ++ [sid],
                    selector := acc.1.selector ++ [sid] }, true)
    | _ => acc

/-- daemon.py RemapDaemon._grab_devices: attempt every configured device in
order; a missing path or failed grab is logged and skipped; returns whether any
device was grabbed (false immediately when none are configured). -/
def RemapDaemon.grab_devices (env : Env) (d : RemapDaemon) (profile : Profile) :
    RemapDaemon × Bool :=
  if profile.input_devices.isEmpty then (d, false)
  else profile.input_devices.foldl (RemapDaemon.grab_step env) (d, false)

/-- daemon.py RemapDaemon.setup: resolve the active profile (creating, saving
and activating the default one when none loads), create the engine, create the
uinput device (returning false on failure), then grab the configured devices. -/
def RemapDaemon.setup (env : Env) (d : RemapDaemon) : RemapDaemon × Bool :=
  let pr :=
    match d.loader.load_active_profile with
    | some p => (d, p)
    | none =>
      let p := RemapDaemon.create_default_profile env
      ({ d with loader := (d.loader.save_profile p).set_active_profile p.id }, p)
  let d2 := { pr.1 with engine := some (RemapEngine.init pr.2) }
  if env.uinput_ok then
    RemapDaemon.grab_devices env { d2 with uinput := true } pr.2
  else (d2, false)

/-- daemon.py main, daemon path: exit status 1 when setup fails, else 0. -/
def daemon_main_exit (env : Env) (loader : ProfileLoader) (watch : Bool) : Nat :=
  if (RemapDaemon.setup env (RemapDaemon.mk0 loader watch)).2 then 0 else 1

/-- daemon.py RemapDaemon._passthrough_event: write the raw event to the virtual
device; unless the event is itself a sync event, follow it with a syn marker. -/
def RemapDaemon.passthrough_event (d : RemapDaemon) (ev : InputEvent) : List Effect :=
  if d.uinput then
    Effect.writeEvent ev :: (if ev.etype ≠ EV_SYN then [Effect.syn] else [])
  else []

/-- daemon.py run-loop body for one event: engine.process_event; when the event
is reported unhandled it is passed through to the virtual device. -/
def RemapDaemon.handle_event (d : RemapDaemon) (ev : InputEvent) :
    RemapDaemon × List Effect :=
  match d.engine with
  | none => (d, [])
  | some e =>
    let r := e.process_event ev
    let d2 := { d with engine := some r.1 }
    if r.2.2 then (d2, r.2.1)
    else (d2, d2.passthrough_event ev)

/-- daemon.py run-loop body for a drained batch of events from one device. -/
def RemapDaemon.handle_events (d : RemapDaemon) (evs : List InputEvent) :
    RemapDaemon × List Effect :=
  match evs with
  | [] => (d, [])
  | ev :: rest =>
    let r := d.handle_event ev
    let r2 := r.1.handle_events rest
    (r2.1, r.2 ++ r2.2)

/-- The outcome of device.read() for one ready device in the run loop. -/
inductive ReadResult where
  | events (evs : List InputEvent)
  | ioError (msg : String)
deriving Repr, DecidableEq

/-- daemon.py run-loop body for one ready device: process its drained events; a
read error is caught and logged, and the loop moves on (the device is left
registered with the selector). -/
def RemapDaemon.handle_ready_device (d : RemapDaemon) (_sid : String)
    (r : ReadResult) : RemapDaemon × List Effect :=
  match r with
  | ReadResult.events evs => d.handle_events evs
  | ReadResult.ioError msg => (d, [Effect.logError ("Error reading device: " ++ msg)])

/-- daemon.py RemapDaemon._stop_app_watcher. -/
def RemapDaemon.stop_app_watcher (d : RemapDaemon) : RemapDaemon × List Effect :=
  if d.app_watcher then ({ d with app_watcher := false }, [Effect.stopWatcher])
  else (d, [])

/-- daemon.py RemapDaemon.cleanup: stop the app watcher, release all keys
(which cancels in-flight macro playback), ungrab and unregister each grabbed
device, close the uinput device, close the selector. -/
def RemapDaemon.cleanup (d : RemapDaemon) : RemapDaemon × List Effect :=
  let w := d.stop_app_watcher
  let er :=
    match w.1.engine with
    | some e =>
      let r := e.release_all_keys
      ({ w.1 with engine := some r.1 }, r.2)
    | none => (w.1, [])
  let ungrabs := er.1.grabbed_devices.map Effect.ungrabDevice
  let d3 := { er.1 with grabbed_devices := [], selector := [] }
  let cu : List Effect × RemapDaemon :=
    if d3.uinput then ([Effect.closeUinput], { d3 with uinput := false })
    else ([], d3)
  (cu.2, w.2 ++ er.2 ++ ungrabs ++ cu.1 ++ [Effect.closeSelector])

/-- daemon.py RemapDaemon.switch_profile: a no-op without an engine; otherwise
persist the new active-profile id, then reload the engine with the new profile. -/
def RemapDaemon.switch_profile (d : RemapDaemon) (p : Profile) :
    RemapDaemon × List Effect :=
  match d.engine with
  | none => (d, [])
  | some e =>
    let r := e.reload_profile p
    ({ d with loader := d.loader.set_active_profile p.id, engine := some r.1 }, r.2)

/-- Fuel-indexed glob matching; the fuel only bounds the recursion depth, which
each step reduces while shrinking `pattern.length + text.length`, so the
wrapper `globMatch` below always supplies enough. -/
def globMatchF : Nat → List Char → List Char → Bool
  | 0, _, _ => false
  | _ + 1, [], cs => cs.isEmpty
  | f + 1, p :: ps, cs =>
    if p == '*' then
      match cs with
      | [] => globMatchF f ps []
      | c :: cs2 => globMatchF f ps (c :: cs2) || globMatchF f (p :: ps) cs2
    else
      match cs with
      | [] => false
      | c :: cs2 => p == c && globMatchF f ps cs2

/-- Modelled from the spec (§4.4; services/app_watcher/watcher.py is not among
the provided repository files): glob matching where a star matches any character
sequence and every other pattern character matches itself. -/
def globMatch (ps cs : List Char) : Bool :=
  globMatchF (ps.length + cs.length + 1) ps cs

/-- Substring containment on character lists. -/
def isSubstrList (needle : List Char) : List Char → Bool
  | [] => needle.isEmpty
  | c :: cs => needle.isPrefixOf (c :: cs) || isSubstrList needle cs

/-- Modelled from the spec (§4.4 pattern semantics) and the repository's own
tests (src/tests/test_app_watcher.py TestPatternMatching): AppWatcher's
_matches_pattern is case-insensitive and accepts an exact match, a star
wildcard glob when the pattern contains a star, or substring containment. -/
def matches_pattern (process_name pattern : String) : Bool :=
  let n := process_name.toList.map Char.toLower
  let p := pattern.toList.map Char.toLower
  p == n || (if p.contains '*' then globMatch p n else isSubstrList p n)

/-- Whether the registry resolves `sid` to a path whose grab succeeds. -/
def grabOk (env : Env) (sid : String) : Bool :=
  match env.event_path sid with
  | some path => decide (env.grab path = GrabResult.ok)
  | none => false

/-- Whether an effect is a synthesized key-up. -/
def Effect.isKeyUp : Effect → Bool
  | Effect.keyUp _ => true
  | _ => false

/-! ### Helper lemmas -/

theorem insertKey_nodup (k : Nat) (ks : List Nat) (h : ks.Nodup) :
    (insertKey k ks).Nodup := by
  unfold insertKey
  split
  · exact h
  · next hk => simp [List.nodup_append, h, hk]

theorem assertKeys_nodup (keys ks : List Nat) (h : ks.Nodup) :
    (assertKeys keys ks).Nodup := by
  induction keys generalizing ks with
  | nil => simpa [assertKeys] using h
  | cons x xs ih =>
    simpa [assertKeys, List.foldl_cons] using ih (insertKey x ks) (insertKey_nodup x ks h)

theorem removeKeys_nodup (keys ks : List Nat) (h : ks.Nodup) :
    (removeKeys keys ks).Nodup :=
  h.filter _

theorem mem_insertKey_self (k : Nat) (ks : List Nat) : k ∈ insertKey k ks := by
  unfold insertKey
  split
  · assumption
  · simp

theorem mem_insertKey_of_mem (m k : Nat) (ks : List Nat) (h : m ∈ ks) :
    m ∈ insertKey k ks := by
  unfold insertKey
  split
  · exact h
  · simp [h]

theorem mem_assertKeys_of_mem_base (m : Nat) (keys ks : List Nat) (h : m ∈ ks) :
    m ∈ assertKeys keys ks := by
  induction keys generalizing ks with
  | nil => simpa [assertKeys] using h
  | cons x xs ih =>
    simpa [assertKeys, List.foldl_cons] using
      ih (insertKey x ks) (mem_insertKey_of_mem m x ks h)

theorem mem_assertKeys_of_mem (k : Nat) (keys ks : List Nat) (h : k ∈ keys) :
    k ∈ assertKeys keys ks := by
  induction keys generalizing ks with
  | nil => cases h
  | cons x xs ih =>
    rcases List.mem_cons.mp h with rfl | hx
    · simpa [assertKeys, List.foldl_cons] using
        mem_assertKeys_of_mem_base k xs (insertKey k ks) (mem_insertKey_self k ks)
    · simpa [assertKeys, List.foldl_cons] using ih (insertKey x ks) hx

theorem not_mem_removeKeys (k : Nat) (keys ks : List Nat) (h : k ∈ keys) :
    k ∉ removeKeys keys ks := by
  intro hmem
  have := List.of_mem_filter hmem
  simp at this
  exact this h

theorem process_event_nodup (e : RemapEngine) (ev : InputEvent)
    (h : e.asserted_keys.Nodup) : ((e.process_event ev).1).asserted_keys.Nodup := by
  unfold RemapEngine.process_event
  repeat' split
  all_goals
    first
    | exact h
    | exact assertKeys_nodup _ _ h
    | exact removeKeys_nodup _ _ h

theorem step_nodup (e : RemapEngine) (i : EngineInput)
    (h : e.asserted_keys.Nodup) : (e.step i).asserted_keys.Nodup := by
  cases i with
  | phys ev => exact process_event_nodup e ev h
  | macroKeyDown k => exact insertKey_nodup k e.asserted_keys h

theorem runInputs_nodup (e : RemapEngine) (is : List EngineInput)
    (h : e.asserted_keys.Nodup) : (e.runInputs is).asserted_keys.Nodup := by
  induction is generalizing e with
  | nil => simpa [RemapEngine.runInputs] using h
  | cons i rest ih =>
    simpa [RemapEngine.runInputs, List.foldl_cons] using ih (e.step i) (step_nodup e i h)

theorem count_keyUp_map (k : Nat) (l : List Nat) :
    (l.map Effect.keyUp).count (Effect.keyUp k) = l.count k := by
  induction l with
  | nil => rfl
  | cons x xs ih => simp [List.count_cons, ih]

theorem countP_isKeyUp_map (l : List Nat) :
    (l.map Effect.keyUp).countP Effect.isKeyUp = l.length := by
  induction l with
  | nil => rfl
  | cons x xs ih => simp [List.countP_cons, ih, Effect.isKeyUp]

/-- The release trace of `release_all_keys` over a duplicate-free asserted set:
one key-up per asserted key, and all engine state cleared. -/
theorem release_all_keys_spec (e : RemapEngine) (h : e.asserted_keys.Nodup) :
    e.release_all_keys.2.countP Effect.isKeyUp = e.asserted_keys.length
    ∧ (∀ k ∈ e.asserted_keys, e.release_all_keys.2.count (Effect.keyUp k) = 1)
    ∧ e.release_all_keys.1.asserted_keys = []
    ∧ e.release_all_keys.1.held_modifiers = []
    ∧ e.release_all_keys.1.macro_in_flight = none := by
  refine ⟨?_, ?_, rfl, rfl, rfl⟩
  · unfold RemapEngine.release_all_keys
    split <;> simp [List.countP_append, countP_isKeyUp_map, List.countP_cons, Effect.isKeyUp]
  · intro k hk
    unfold RemapEngine.release_all_keys
    have hone : (e.asserted_keys.map Effect.keyUp).count (Effect.keyUp k) = 1 := by
      rw [count_keyUp_map]
      exact List.count_eq_one_of_mem h hk
    split <;> simp [List.count_append, List.count_cons, hone]

/-! ### Claim theorems -/

/-- C1: for every sequence of key-down inputs processed by a fresh engine
(physical key-downs and keys asserted by in-flight macros) with no matching
key-ups, release_all_keys synthesizes exactly one key-up for every key in
asserted_keys, and afterward the asserted-key set is empty and all engine
state is cleared. -/
theorem C1_release_all_no_stuck_keys (p : Profile) (inputs : List EngineInput)
    (_hdown : ∀ i ∈ inputs, i.isKeyDown = true) :
    ((RemapEngine.init p).runInputs inputs).release_all_keys.2.countP Effect.isKeyUp
        = ((RemapEngine.init p).runInputs inputs).asserted_keys.length
    ∧ (∀ k ∈ ((RemapEngine.init p).runInputs inputs).asserted_keys,
        ((RemapEngine.init p).runInputs inputs).release_all_keys.2.count (Effect.keyUp k) = 1)
    ∧ ((RemapEngine.init p).runInputs inputs).release_all_keys.1.asserted_keys = []
    ∧ ((RemapEngine.init p).runInputs inputs).release_all_keys.1.held_modifiers = []
    ∧ ((RemapEngine.init p).runInputs inputs).release_all_keys.1.macro_in_flight = none :=
  release_all_keys_spec _ (runInputs_nodup _ inputs List.nodup_nil)

/-- Binding for the C1 witness: CTRL (29) and C (46) on side button 275. -/
def bindingW1 : Binding :=
  { input_code := 275, action_type := ActionType.KEY, output_keys := [29, 46],
    macro_id := none }

/-- Profile for the C1 witness. -/
def profileW1 : Profile :=
  { id := "p1", name := "Test", description := "",
    input_devices := ["razer-mouse"],
    layers := [{ id := "base", name := "Base Layer", bindings := [bindingW1],
                 hold_modifier_input_code := none }],
    is_default := false }

/-- Inputs for the C1 witness: one bound key-down plus one macro-asserted key. -/
def inputsW1 : List EngineInput :=
  [EngineInput.phys { etype := 1, code := 275, value := 1 }, EngineInput.macroKeyDown 88]

/-- Witness for C1 at a concrete profile and key-down sequence. -/
theorem C1_release_all_no_stuck_keys_witness :
    (∀ i ∈ inputsW1, i.isKeyDown = true)
    ∧ (((RemapEngine.init profileW1).runInputs inputsW1).release_all_keys.2.countP Effect.isKeyUp
          = ((RemapEngine.init profileW1).runInputs inputsW1).asserted_keys.length
      ∧ (∀ k ∈ ((RemapEngine.init profileW1).runInputs inputsW1).asserted_keys,
          ((RemapEngine.init profileW1).runInputs inputsW1).release_all_keys.2.count
            (Effect.keyUp k) = 1)
      ∧ ((RemapEngine.init profileW1).runInputs inputsW1).release_all_keys.1.asserted_keys = []
      ∧ ((RemapEngine.init profileW1).runInputs inputsW1).release_all_keys.1.held_modifiers = []
      ∧ ((RemapEngine.init profileW1).runInputs inputsW1).release_all_keys.1.macro_in_flight
          = none) :=
  ⟨by decide, C1_release_all_no_stuck_keys profileW1 inputsW1 (by decide)⟩

/-- C2: cleanup() emits its effects in the strict order: stop the App Watcher,
then cancel in-flight macro playback, then release every asserted key
(release_all_keys), then ungrab each physical device, then close the virtual
device (and finally the selector). -/
theorem C2_cleanup_order (d : RemapDaemon) :
    d.cleanup.2 =
      (if d.app_watcher then [Effect.stopWatcher] else [])
      ++ ((match d.engine with
           | some e =>
             (if e.macro_in_flight.isSome then [Effect.cancelMacroPlayback] else [])
             ++ e.asserted_keys.map Effect.keyUp
           | none => []) : List Effect)
      ++ d.grabbed_devices.map Effect.ungrabDevice
      ++ (if d.uinput then [Effect.closeUinput] else [])
      ++ [Effect.closeSelector] := by
  unfold RemapDaemon.cleanup RemapDaemon.stop_app_watcher RemapEngine.release_all_keys
  cases hw : d.app_watcher <;> cases he : d.engine <;> cases hu : d.uinput <;>
    simp [hw, he, hu]

/-- C6 counterexample fixture: a daemon with two grabbed devices registered
with the multiplexer. -/
def daemonC6 : RemapDaemon :=
  { loader := { profiles := [], active_id := none },
    engine := some (RemapEngine.init
      { id := "p6", name := "P6", description := "", input_devices := ["razer-a", "razer-b"],
        layers := [{ id := "base", name := "Base", bindings := [],
                     hold_modifier_input_code := none }],
        is_default := false }),
    uinput := true,
    grabbed_devices := ["razer-a", "razer-b"], selector := ["razer-a", "razer-b"],
    running := true, enable_app_watcher := false, app_watcher := false }

/-- C6 counterexample: when device razer-a fails with a read I/O error, the
run-loop body logs the error and continues, but razer-a is NOT removed from
the multiplexer — the selector still contains it, contrary to the claim. -/
theorem C6_counterexample :
    (daemonC6.handle_ready_device "razer-a" (ReadResult.ioError "boom")).1.selector
      = ["razer-a", "razer-b"]
    ∧ "razer-a" ∈ (daemonC6.handle_ready_device "razer-a" (ReadResult.ioError "boom")).1.selector
    ∧ (daemonC6.handle_ready_device "razer-a" (ReadResult.ioError "boom")).2
      = [Effect.logError "Error reading device: boom"] := by
  exact ⟨rfl, by decide, rfl⟩

/-- C6 (amended): a read I/O error on one grabbed device is logged and the
loop continues with the remaining devices, the daemon state (in particular
the multiplexer registration) left unchanged; the failing device is retried
on the next iteration rather than removed. -/
theorem C6_read_error_logged_loop_continues (d : RemapDaemon) (sid msg : String) :
    d.handle_ready_device sid (ReadResult.ioError msg)
      = (d, [Effect.logError ("Error reading device: " ++ msg)])
    ∧ (d.handle_ready_device sid (ReadResult.ioError msg)).1.selector = d.selector :=
  ⟨rfl, rfl⟩

/-- C8: AppWatcher pattern matching is case-insensitive and accepts exact
matches, star-wildcard glob matches and substring containment: every assertion
of src/tests/test_app_watcher.py TestPatternMatching, including the claim's
examples (pattern fire* matches firefox; pattern steam matches
steam_app_12345). -/
theorem C8_pattern_matching :
    matches_pattern "firefox" "firefox" = true
    ∧ matches_pattern "Firefox" "firefox" = true
    ∧ matches_pattern "chrome" "firefox" = false
    ∧ matches_pattern "firefox" "fire*" = true
    ∧ matches_pattern "firefox" "*fox" = true
    ∧ matches_pattern "game.exe" "*.exe" = true
    ∧ matches_pattern "game.bin" "*.exe" = false
    ∧ matches_pattern "steam_app_12345" "steam" = true
    ∧ matches_pattern "com.google.chrome" "chrome" = true
    ∧ matches_pattern "FIREFOX" "firefox" = true
    ∧ matches_pattern "Firefox" "FIREFOX" = true
    ∧ matches_pattern "steam_app" "Steam" = true := by
  decide

/-- C10: switch_profile(profile) with no engine returns immediately as a
complete no-op (the persisted active-profile id unchanged); with an engine it
persists the new active-profile id and reloads the engine with the new
profile (whose reload first releases all asserted keys). -/
theorem C10_switch_profile_guard (d : RemapDaemon) (p : Profile) :
    (d.engine = none →
      d.switch_profile p = (d, [])
      ∧ (d.switch_profile p).1.loader.active_id = d.loader.active_id)
    ∧ (∀ e, d.engine = some e →
      (d.switch_profile p).1.loader.active_id = some p.id
      ∧ (d.switch_profile p).1.engine = some (e.reload_profile p).1
      ∧ (d.switch_profile p).2 = e.release_all_keys.2) := by
  constructor
  · intro h
    constructor <;> simp [RemapDaemon.switch_profile, h]
  · intro e h
    refine ⟨?_, ?_, ?_⟩ <;>
      simp [RemapDaemon.switch_profile, h, ProfileLoader.set_active_profile,
            RemapEngine.reload_profile]

/-- Loader fixture for the C10 witness. -/
def loaderW10 : ProfileLoader := { profiles := [], active_id := some "old" }

/-- Profile fixture for the C10 witness. -/
def profileW10 : Profile :=
  { id := "new", name := "New", description := "", input_devices := [],
    layers := [], is_default := false }

/-- Daemon without an engine for the C10 witness. -/
def daemonW10none : RemapDaemon := RemapDaemon.mk0 loaderW10 false

/-- Daemon with an engine for the C10 witness. -/
def daemonW10some : RemapDaemon :=
  { RemapDaemon.mk0 loaderW10 false with engine := some (RemapEngine.init profileW10) }

/-- Witness for C10 at concrete daemons with and without an engine. -/
theorem C10_switch_profile_guard_witness :
    (daemonW10none.engine = none
      ∧ daemonW10none.switch_profile profileW10 = (daemonW10none, [])
      ∧ (daemonW10none.switch_profile profileW10).1.loader.active_id
          = daemonW10none.loader.active_id)
    ∧ (daemonW10some.engine = some (RemapEngine.init profileW10)
      ∧ (daemonW10some.switch_profile profileW10).1.loader.active_id = some profileW10.id
      ∧ (daemonW10some.switch_profile profileW10).1.engine
          = some ((RemapEngine.init profileW10).reload_profile profileW10).1
      ∧ (daemonW10some.switch_profile profileW10).2
          = (RemapEngine.init profileW10).release_all_keys.2) :=
  ⟨⟨rfl, (C10_switch_profile_guard daemonW10none profileW10).1 rfl⟩,
   ⟨rfl, (C10_switch_profile_guard daemonW10some profileW10).2
            (RemapEngine.init profileW10) rfl⟩⟩

/-- The device-grab loop as a function of the configured device list: grabbed
devices are exactly those whose grab succeeds, and the flag records whether any
did. -/
theorem grab_step_fold (env : Env) (sids : List String) (d : RemapDaemon) (flag : Bool) :
    sids.foldl (RemapDaemon.grab_step env) (d, flag)
      = ({ d with grabbed_devices := d.grabbed_devices ++ sids.filter (grabOk env),
                  selector := d.selector ++ sids.filter (grabOk env) },
         flag || sids.any (grabOk env)) := by
  induction sids generalizing d flag with
  | nil => simp
  | cons x xs ih =>
    simp only [List.foldl_cons, List.filter_cons, List.any_cons]
    cases hp : env.event_path x with
    | none => simp [RemapDaemon.grab_step, hp, ih, grabOk]
    | some path =>
      cases hg : env.grab path <;>
        simp [RemapDaemon.grab_step, hp, hg, ih, grabOk, List.append_assoc]

/-- daemon.py _grab_devices: the grabbed set is the filter of the configured
devices by grab success, and the result is whether any grab succeeded. -/
theorem grab_devices_spec (env : Env) (d : RemapDaemon) (profile : Profile) :
    RemapDaemon.grab_devices env d profile
      = ({ d with grabbed_devices :=
                    d.grabbed_devices ++ profile.input_devices.filter (grabOk env),
                  selector := d.selector ++ profile.input_devices.filter (grabOk env) },
         profile.input_devices.any (grabOk env)) := by
  unfold RemapDaemon.grab_devices
  split
  · next h =>
      have h2 : profile.input_devices = [] := by simpa using h
      simp [h2]
  · rw [grab_step_fold]
    simp

theorem any_eq_true_iff_filter_ne_nil {α : Type} (p : α → Bool) (l : List α) :
    l.any p = true ↔ l.filter p ≠ [] := by
  induction l with
  | nil => simp
  | cons x xs ih => cases hx : p x <;> simp [hx, ih]

/-- The profile setup() resolves: the loaded active profile, or the generated
default one. -/
def setupProfile (env : Env) (loader : ProfileLoader) : Profile :=
  match loader.load_active_profile with
  | some p => p
  | none => RemapDaemon.create_default_profile env

/-- C3: setup() on a fresh daemon returns true iff at least one of the
profile's input devices was grabbed; when the virtual device is created, the
grabbed set is exactly the configured devices whose grab succeeded — a failing
device is skipped while the rest are still attempted. -/
theorem C3_setup_true_iff_grabbed (env : Env) (loader : ProfileLoader) (watch : Bool) :
    ((RemapDaemon.setup env (RemapDaemon.mk0 loader watch)).2 = true
      ↔ (RemapDaemon.setup env (RemapDaemon.mk0 loader watch)).1.grabbed_devices ≠ [])
    ∧ (env.uinput_ok = true →
        (RemapDaemon.setup env (RemapDaemon.mk0 loader watch)).1.grabbed_devices
          = (setupProfile env loader).input_devices.filter (grabOk env)
        ∧ (RemapDaemon.setup env (RemapDaemon.mk0 loader watch)).2
          = (setupProfile env loader).input_devices.any (grabOk env)) := by
  unfold RemapDaemon.setup setupProfile
  cases hl : loader.load_active_profile <;> cases hu : env.uinput_ok <;>
    simp [hl, hu, grab_devices_spec, RemapDaemon.mk0, any_eq_true_iff_filter_ne_nil]

/-- C4: when creation of the virtual output device fails, setup() returns
false with no device grabbed and main exits with status 1 (non-zero). -/
theorem C4_uinput_failure_fatal (env : Env) (loader : ProfileLoader) (watch : Bool)
    (h : env.uinput_ok = false) :
    (RemapDaemon.setup env (RemapDaemon.mk0 loader watch)).2 = false
    ∧ (RemapDaemon.setup env (RemapDaemon.mk0 loader watch)).1.grabbed_devices = []
    ∧ daemon_main_exit env loader watch = 1
    ∧ daemon_main_exit env loader watch ≠ 0 := by
  unfold daemon_main_exit RemapDaemon.setup
  cases hl : loader.load_active_profile <;> simp [hl, h, RemapDaemon.mk0]

/-- C5: when no active profile loads at setup, the daemon generates the
bindings-free default profile, saves it and sets it active, binds the engine
to it, and the profile-load path never fails setup — the result only depends
on virtual-device creation and device grabbing. -/
theorem C5_default_profile_fallback (env : Env) (loader : ProfileLoader) (watch : Bool)
    (h : loader.load_active_profile = none) :
    (∀ l ∈ (RemapDaemon.create_default_profile env).layers, l.bindings = [])
    ∧ (RemapDaemon.setup env (RemapDaemon.mk0 loader watch)).1.loader.active_id
        = some (RemapDaemon.create_default_profile env).id
    ∧ RemapDaemon.create_default_profile env
        ∈ (RemapDaemon.setup env (RemapDaemon.mk0 loader watch)).1.loader.profiles
    ∧ (RemapDaemon.setup env (RemapDaemon.mk0 loader watch)).1.engine
        = some (RemapEngine.init (RemapDaemon.create_default_profile env))
    ∧ (RemapDaemon.setup env (RemapDaemon.mk0 loader watch)).2
        = (env.uinput_ok
            && (RemapDaemon.create_default_profile env).input_devices.any (grabOk env)) := by
  unfold RemapDaemon.setup
  cases hu : env.uinput_ok <;>
    simp [h, hu, grab_devices_spec, RemapDaemon.mk0, ProfileLoader.save_profile,
          ProfileLoader.set_active_profile, RemapDaemon.create_default_profile]

/-- An unhandled event leaves the engine state unchanged. -/
theorem process_event_unhandled_state (e : RemapEngine) (ev : InputEvent) :
    (e.process_event ev).2.2 = false → (e.process_event ev).1 = e := by
  unfold RemapEngine.process_event
  (repeat' split) <;> intro h <;>
    first | rfl | exact absurd h (by simp)

/-- C7: every event the engine reports unhandled is forwarded to the virtual
device unmodified followed by its terminating sync marker (unless it is itself
a sync event), with the daemon state unchanged; and the run-loop trace of a
batch is the per-event traces in order, preserving relative ordering. -/
theorem C7_unhandled_passthrough (d : RemapDaemon) (e : RemapEngine) (ev : InputEvent)
    (he : d.engine = some e) (hu : d.uinput = true)
    (hun : (e.process_event ev).2.2 = false) :
    d.handle_event ev
      = (d, Effect.writeEvent ev :: (if ev.etype ≠ EV_SYN then [Effect.syn] else []))
    ∧ ∀ evs, (d.handle_events (ev :: evs)).2
        = (d.handle_event ev).2 ++ ((d.handle_event ev).1.handle_events evs).2 := by
  have hfix := process_event_unhandled_state e ev hun
  have hde : ({ d with engine := some e } : RemapDaemon) = d := by rw [← he]
  constructor
  · unfold RemapDaemon.handle_event
    rw [he]
    simp only [hfix, hde, hun, Bool.false_eq_true, if_false]
    simp [RemapDaemon.passthrough_event, hu]
  · intro evs
    rfl

/-- Updating only the asserted-key set does not change hold-modifier detection. -/
theorem isHoldModifier_set_asserted (e : RemapEngine) (ks : List Nat) (c : Nat) :
    RemapEngine.isHoldModifier { e with asserted_keys := ks } c = e.isHoldModifier c := rfl

/-- Updating only the asserted-key set does not change layer resolution. -/
theorem activeLayer_set_asserted (e : RemapEngine) (ks : List Nat) :
    RemapEngine.activeLayer { e with asserted_keys := ks } = e.activeLayer := rfl

/-- C9: for a KEY binding, key-down asserts output_keys on the virtual device
in declared order and records them in asserted_keys; the matching key-up
releases the same keys in reverse order and removes them from asserted_keys. -/
theorem C9_key_binding_chord (e : RemapEngine) (l : Layer) (b : Binding) (code : Nat)
    (hmod : e.isHoldModifier code = false)
    (hl : e.activeLayer = some l)
    (hb : l.findBinding code = some b)
    (hk : b.action_type = ActionType.KEY) :
    e.process_event { etype := EV_KEY, code := code, value := 1 }
      = ({ e with asserted_keys := assertKeys b.output_keys e.asserted_keys },
         b.output_keys.map Effect.keyDown, true)
    ∧ (∀ k ∈ b.output_keys, k ∈ assertKeys b.output_keys e.asserted_keys)
    ∧ ({ e with asserted_keys := assertKeys b.output_keys e.asserted_keys }
          : RemapEngine).process_event { etype := EV_KEY, code := code, value := 0 }
      = ({ e with asserted_keys :=
              removeKeys b.output_keys (assertKeys b.output_keys e.asserted_keys) },
         b.output_keys.reverse.map Effect.keyUp, true)
    ∧ (∀ k ∈ b.output_keys,
        k ∉ removeKeys b.output_keys (assertKeys b.output_keys e.asserted_keys)) := by
  refine ⟨?_, fun k hk2 => mem_assertKeys_of_mem k _ _ hk2, ?_,
          fun k hk2 => not_mem_removeKeys k _ _ hk2⟩
  · unfold RemapEngine.process_event
    simp [hmod, hl, hb, hk, EV_KEY]
  · unfold RemapEngine.process_event
    simp [isHoldModifier_set_asserted, activeLayer_set_asserted, hmod, hl, hb, hk, EV_KEY]

/-- Binding fixture for the C9 witness: side button 276 chorded to CTRL (29)
then C (46). -/
def bindingW9 : Binding :=
  { input_code := 276, action_type := ActionType.KEY, output_keys := [29, 46],
    macro_id := none }

/-- Layer fixture for the C9 witness. -/
def layerW9 : Layer :=
  { id := "base", name := "Base", bindings := [bindingW9],
    hold_modifier_input_code := none }

/-- Engine fixture for the C9 witness. -/
def engineW9 : RemapEngine :=
  RemapEngine.init
    { id := "p9", name := "P9", description := "", input_devices := [],
      layers := [layerW9], is_default := false }

/-- Witness for C9: output_keys=[CTRL, C] yields [CTRL down, C down] on
key-down and [C up, CTRL up] on key-up. -/
theorem C9_key_binding_chord_witness :
    engineW9.isHoldModifier 276 = false
    ∧ engineW9.activeLayer = some layerW9
    ∧ layerW9.findBinding 276 = some bindingW9
    ∧ bindingW9.action_type = ActionType.KEY
    ∧ engineW9.process_event { etype := EV_KEY, code := 276, value := 1 }
        = ({ engineW9 with
              asserted_keys := assertKeys bindingW9.output_keys engineW9.asserted_keys },
           bindingW9.output_keys.map Effect.keyDown, true)
    ∧ (engineW9.process_event { etype := EV_KEY, code := 276, value := 1 }).2.1
        = [Effect.keyDown 29, Effect.keyDown 46]
    ∧ ({ engineW9 with
          asserted_keys := assertKeys bindingW9.output_keys engineW9.asserted_keys }
          : RemapEngine).process_event { etype := EV_KEY, code := 276, value := 0 }
        = ({ engineW9 with
              asserted_keys := removeKeys bindingW9.output_keys
                (assertKeys bindingW9.output_keys engineW9.asserted_keys) },
           bindingW9.output_keys.reverse.map Effect.keyUp, true)
    ∧ (({ engineW9 with
           asserted_keys := assertKeys bindingW9.output_keys engineW9.asserted_keys }
          : RemapEngine).process_event { etype := EV_KEY, code := 276, value := 0 }).2.1
        = [Effect.keyUp 46, Effect.keyUp 29] :=
  ⟨by decide, by decide, by decide, rfl,
   (C9_key_binding_chord engineW9 layerW9 bindingW9 276 (by decide) (by decide)
      (by decide) rfl).1,
   by decide,
   (C9_key_binding_chord engineW9 layerW9 bindingW9 276 (by decide) (by decide)
      (by decide) rfl).2.2.1,
   by decide⟩

/-- Profile fixture for the C3 witness: two configured devices. -/
def profileW3 : Profile :=
  { id := "p3", name := "P3", description := "",
    input_devices := ["razer-a", "razer-b"], layers := [], is_default := false }

/-- Loader fixture for the C3 witness. -/
def loaderW3 : ProfileLoader := { profiles := [profileW3], active_id := some "p3" }

/-- Environment fixture for the C3 witness: razer-a's grab is denied, razer-b's
succeeds, uinput creation works. -/
def envW3 : Env :=
  { event_path := fun sid =>
      if sid = "razer-a" then some "/dev/input/event5"
      else if sid = "razer-b" then some "/dev/input/event6" else none,
    grab := fun path =>
      if path = "/dev/input/event5" then GrabResult.permissionDenied else GrabResult.ok,
    uinput_ok := true, razer_mice := [] }

/-- Witness for C3: with one denied and one successful grab, setup returns true
and the grabbed set is exactly the surviving device — the failure was skipped
and the remaining device still attempted. -/
theorem C3_setup_true_iff_grabbed_witness :
    ((RemapDaemon.setup envW3 (RemapDaemon.mk0 loaderW3 false)).2 = true
      ↔ (RemapDaemon.setup envW3 (RemapDaemon.mk0 loaderW3 false)).1.grabbed_devices ≠ [])
    ∧ (envW3.uinput_ok = true →
        (RemapDaemon.setup envW3 (RemapDaemon.mk0 loaderW3 false)).1.grabbed_devices
          = (setupProfile envW3 loaderW3).input_devices.filter (grabOk envW3)
        ∧ (RemapDaemon.setup envW3 (RemapDaemon.mk0 loaderW3 false)).2
          = (setupProfile envW3 loaderW3).input_devices.any (grabOk envW3))
    ∧ (RemapDaemon.setup envW3 (RemapDaemon.mk0 loaderW3 false)).1.grabbed_devices
        = ["razer-b"]
    ∧ (RemapDaemon.setup envW3 (RemapDaemon.mk0 loaderW3 false)).2 = true :=
  ⟨(C3_setup_true_iff_grabbed envW3 loaderW3 false).1,
   (C3_setup_true_iff_grabbed envW3 loaderW3 false).2, by decide, by decide⟩

/-- Environment fixture for the C4 witness: uinput creation fails. -/
def envW4 : Env :=
  { event_path := fun _ => none, grab := fun _ => GrabResult.ok,
    uinput_ok := false, razer_mice := [] }

/-- Loader fixture for the C4 witness. -/
def loaderW4 : ProfileLoader := { profiles := [], active_id := none }

/-- Witness for C4 at a concrete environment whose uinput creation fails. -/
theorem C4_uinput_failure_fatal_witness :
    envW4.uinput_ok = false
    ∧ (RemapDaemon.setup envW4 (RemapDaemon.mk0 loaderW4 false)).2 = false
    ∧ (RemapDaemon.setup envW4 (RemapDaemon.mk0 loaderW4 false)).1.grabbed_devices = []
    ∧ daemon_main_exit envW4 loaderW4 false = 1
    ∧ daemon_main_exit envW4 loaderW4 false ≠ 0 :=
  ⟨rfl, C4_uinput_failure_fatal envW4 loaderW4 false rfl⟩

/-- Environment fixture for the C5 witness. -/
def envW5 : Env :=
  { event_path := fun _ => none, grab := fun _ => GrabResult.failed,
    uinput_ok := true, razer_mice := ["razer-m1"] }

/-- Loader fixture for the C5 witness: no active profile exists. -/
def loaderW5 : ProfileLoader := { profiles := [], active_id := none }

/-- Witness for C5 at a concrete store with no active profile. -/
theorem C5_default_profile_fallback_witness :
    loaderW5.load_active_profile = none
    ∧ ((∀ l ∈ (RemapDaemon.create_default_profile envW5).layers, l.bindings = [])
      ∧ (RemapDaemon.setup envW5 (RemapDaemon.mk0 loaderW5 false)).1.loader.active_id
          = some (RemapDaemon.create_default_profile envW5).id
      ∧ RemapDaemon.create_default_profile envW5
          ∈ (RemapDaemon.setup envW5 (RemapDaemon.mk0 loaderW5 false)).1.loader.profiles
      ∧ (RemapDaemon.setup envW5 (RemapDaemon.mk0 loaderW5 false)).1.engine
          = some (RemapEngine.init (RemapDaemon.create_default_profile envW5))
      ∧ (RemapDaemon.setup envW5 (RemapDaemon.mk0 loaderW5 false)).2
          = (envW5.uinput_ok
              && (RemapDaemon.create_default_profile envW5).input_devices.any
                   (grabOk envW5))) :=
  ⟨rfl, C5_default_profile_fallback envW5 loaderW5 false rfl⟩

/-- Engine fixture for the C7 witness (no bindings). -/
def engineW7 : RemapEngine :=
  RemapEngine.init
    { id := "p7", name := "P7", description := "", input_devices := [],
      layers := [{ id := "base", name := "Base", bindings := [],
                   hold_modifier_input_code := none }],
      is_default := false }

/-- Daemon fixture for the C7 witness: engine present, virtual device created. -/
def daemonW7 : RemapDaemon :=
  { RemapDaemon.mk0 { profiles := [], active_id := none } false with
    engine := some engineW7, uinput := true }

/-- Relative-motion event for the C7 witness (EV_REL, reported unhandled). -/
def evW7 : InputEvent := { etype := 2, code := 8, value := 1 }

/-- Witness for C7: an unhandled relative-motion event is forwarded verbatim
followed by a syn marker, and batch traces concatenate in order. -/
theorem C7_unhandled_passthrough_witness :
    daemonW7.engine = some engineW7
    ∧ daemonW7.uinput = true
    ∧ (engineW7.process_event evW7).2.2 = false
    ∧ daemonW7.handle_event evW7
        = (daemonW7,
           Effect.writeEvent evW7 :: (if evW7.etype ≠ EV_SYN then [Effect.syn] else []))
    ∧ (daemonW7.handle_event evW7).2 = [Effect.writeEvent evW7, Effect.syn]
    ∧ (daemonW7.handle_events (evW7 :: [{ etype := 0, code := 0, value := 0 }])).2
        = (daemonW7.handle_event evW7).2
          ++ ((daemonW7.handle_event evW7).1.handle_events
                [{ etype := 0, code := 0, value := 0 }]).2 :=
  ⟨rfl, rfl, by decide,
   (C7_unhandled_passthrough daemonW7 engineW7 evW7 rfl rfl (by decide)).1,
   by decide,
   (C7_unhandled_passthrough daemonW7 engineW7 evW7 rfl rfl (by decide)).2
     [{ etype := 0, code := 0, value := 0 }]⟩
